import Mathlib

/-!
Verification of the validated-CRUD core of the Student Management System
(`Student.py`): the `InputValidator` field checks, the `DatabaseManager`
store operations (insert / update / delete / list / search over a SQLite
table with unique indices on email and phone), and the form-composition
layer `StudentManagementApp.get_form` / `add_student`.

Modelling conventions:
* Strings are modelled over their ASCII fragment (Python's `re` character
  classes `\w`, `\s` and `str.isdigit` are modelled by their ASCII meaning).
* Timestamps (`date_added`, `last_modified`) are abstract clock readings,
  modelled as `Nat`; the Python code stores `"%Y-%m-%d %H:%M:%S"` strings,
  whose lexicographic order agrees with chronological order.
* The SQLite table is modelled as a list of rows plus the AUTOINCREMENT
  counter; the unique indices on `student_email` and `student_phone` are
  modelled by membership checks, in index-creation order (email first),
  and the `IntegrityError` message branching of the Python code is
  reflected in the returned `(Bool, String)` pairs.
-/

namespace StudentApp

/-- ASCII model of the whitespace class `\s` of Python's `re` module
(also the characters removed by `str.strip`). -/
def is_py_space (c : Char) : Bool :=
  c == ' ' || c == '\t' || c == '\n' || c == '\r' || c == '\x0b' || c == '\x0c'

/-- Python `str.strip()`: drop leading and trailing whitespace. -/
def py_strip (s : String) : String :=
  ⟨((s.data.dropWhile is_py_space).reverse.dropWhile is_py_space).reverse⟩

/-- Python `str.isdigit()` (ASCII fragment): non-empty and all digits. -/
def py_isdigit (s : String) : Bool :=
  !s.data.isEmpty && s.data.all Char.isDigit

/-- Characters removed by `re.sub(r'[\s\-()]', '', phone)`. -/
def is_phone_sep (c : Char) : Bool :=
  is_py_space c || c == '-' || c == '(' || c == ')'

/-- The normalisation step of `validate_phone` and `get_form`:
`re.sub(r'[\s\-()]', '', s)`. -/
def strip_phone_chars (s : String) : String :=
  ⟨s.data.filter (fun c => !is_phone_sep c)⟩

/-- Character class `[\w\s.\-]` of the name regex (ASCII `\w`). -/
def is_name_char (c : Char) : Bool :=
  c.isAlphanum || c == '_' || is_py_space c || c == '.' || c == '-'

/-- `re.match(r'^[\w\s.\-]+$', s)` as a Boolean: one or more characters of
the class.  (Python's `$` also matches before a final newline, but `\n` is
already in the class, so the language is exactly "non-empty, all in
class".) -/
def name_re_match (s : String) : Bool :=
  !s.isEmpty && s.data.all is_name_char

/-- Character class `[a-zA-Z0-9._%+-]` of the email local part. -/
def is_local_char (c : Char) : Bool :=
  c.isAlphanum || c == '.' || c == '_' || c == '%' || c == '+' || c == '-'

/-- Character class `[a-zA-Z0-9.-]` of the email domain part. -/
def is_domain_char (c : Char) : Bool :=
  c.isAlphanum || c == '.' || c == '-'

/-- `[a-zA-Z]{2,}` applied to the whole remaining suffix. -/
def tld_ok (t : List Char) : Bool :=
  decide (2 ≤ t.length) && t.all Char.isAlpha

/-- `[a-zA-Z0-9.-]+\.[a-zA-Z]{2,}` (to the end of input): some split
`d = a ++ '.' :: t` with `a` non-empty over the domain class and `t` a
2+-letter TLD. -/
def domain_ok (d : List Char) : Bool :=
  (List.range d.length).any fun i =>
    match d.drop i with
    | '.' :: t => !(d.take i).isEmpty && (d.take i).all is_domain_char && tld_ok t
    | _ => false

/-- Split a character list at the first occurrence of `c`. -/
def split_at_first (c : Char) : List Char → Option (List Char × List Char)
  | [] => none
  | x :: xs =>
    if x == c then some ([], xs)
    else (split_at_first c xs).map (fun p => (x :: p.1, p.2))

/-- The email regex without the `$`-before-final-newline subtlety:
`[a-zA-Z0-9._%+-]+@` then the domain shape to the end. -/
def email_core (cs : List Char) : Bool :=
  match split_at_first '@' cs with
  | none => false
  | some (l, d) => !l.isEmpty && l.all is_local_char && domain_ok d

/-- `re.match(r'^[a-zA-Z0-9._%+-]+@[a-zA-Z0-9.-]+\.[a-zA-Z]{2,}$', s)`:
Python's `$` matches at the end of the string or just before one final
newline. -/
def email_re_match (s : String) : Bool :=
  email_core s.data ||
    (s.data.getLast? == some '\n' && email_core s.data.dropLast)

/-- `InputValidator.validate_name` (returns Python's `(ok, message)`). -/
def validate_name (name : String) : Bool × String :=
  if (py_strip name).isEmpty then (false, "Name cannot be empty.")
  else if (py_strip name).length < 2 then (false, "Name must be at least 2 characters.")
  else if !name_re_match name then (false, "Name contains invalid characters.")
  else (true, "")

/-- `InputValidator.validate_email`. -/
def validate_email (email : String) : Bool × String :=
  if (py_strip email).isEmpty then (false, "Email cannot be empty.")
  else if !email_re_match email then (false, "Invalid email format.")
  else (true, "")

/-- `InputValidator.validate_phone` (the stripped value `p` is written out
twice rather than `let`-bound, for ease of rewriting). -/
def validate_phone (phone : String) : Bool × String :=
  if !py_isdigit (strip_phone_chars phone) ||
      !(decide (10 ≤ (strip_phone_chars phone).length) &&
        decide ((strip_phone_chars phone).length ≤ 15)) then
    (false, "Phone must be 10-15 digits.")
  else (true, "")

/-- `InputValidator.validate_pincode`. -/
def validate_pincode (pin : String) : Bool × String :=
  if !py_isdigit pin || !(pin.length == 5 || pin.length == 6) then
    (false, "Pincode must be 5 or 6 digits.")
  else (true, "")

/-- One row of the `students` table (13 columns).  `student_id` is the
INTEGER PRIMARY KEY AUTOINCREMENT; the two timestamp columns hold abstract
clock readings. -/
structure StudentRecord where
  student_id : Nat
  student_name : String
  student_email : String
  student_phone : String
  student_college : String
  student_department : String
  student_year : String
  student_address : String
  student_city : String
  student_state : String
  student_pincode : String
  date_added : Nat
  last_modified : Nat
deriving DecidableEq, Repr

/-- The database state: the table contents plus the AUTOINCREMENT counter
(ids are assigned from it and never reused). -/
structure Store where
  records : List StudentRecord
  next_id : Nat
deriving DecidableEq, Repr

/-- A freshly created database file: empty table, first id will be 1. -/
def empty_store : Store := ⟨[], 1⟩

/-- The `data` dict passed to `DatabaseManager.insert_student` (keys
`name` … `pincode`, `date_added`, `last_modified`). -/
structure InsertData where
  name : String
  email : String
  phone : String
  college : String
  department : String
  year : String
  address : String
  city : String
  state : String
  pincode : String
  date_added : Nat
  last_modified : Nat
deriving DecidableEq, Repr

/-- The `data` dict passed to `DatabaseManager.update_student` (no
`date_added` key: that column is not in the UPDATE's SET list). -/
structure UpdateData where
  name : String
  email : String
  phone : String
  college : String
  department : String
  year : String
  address : String
  city : String
  state : String
  pincode : String
  last_modified : Nat
deriving DecidableEq, Repr

/-- `DatabaseManager.insert_student`: the INSERT probes the unique
indexes newest-created-first (SQLite prepends each new index to the
table's index list), so `idx_students_phone` fires before
`idx_students_email` when both columns collide; the `IntegrityError`
handler maps the failing constraint's message (which names one column) to
a field-specific message.  On success SQLite assigns the next
AUTOINCREMENT id.  Returns the new store together with the Python
`(bool, str)` result. -/
def insert_student (db : Store) (d : InsertData) : Store × Bool × String :=
  if db.records.any (fun r => r.student_phone == d.phone) then
    (db, false, "Phone already exists.")
  else if db.records.any (fun r => r.student_email == d.email) then
    (db, false, "Email already exists.")
  else
    ({ records := db.records ++
        [⟨db.next_id, d.name, d.email, d.phone, d.college, d.department, d.year,
          d.address, d.city, d.state, d.pincode, d.date_added, d.last_modified⟩],
       next_id := db.next_id + 1 }, true, "")

/-- The effect of the UPDATE's SET list on the matched row: every mutable
column is overwritten, `student_id` and `date_added` are not in the SET
list and keep their values. -/
def apply_update (d : UpdateData) (r : StudentRecord) : StudentRecord :=
  { r with
    student_name := d.name, student_email := d.email, student_phone := d.phone,
    student_college := d.college, student_department := d.department,
    student_year := d.year, student_address := d.address, student_city := d.city,
    student_state := d.state, student_pincode := d.pincode,
    last_modified := d.last_modified }

/-- `DatabaseManager.update_student`: if no row has the id, `rowcount` is 0
and the code reports the id may not exist; otherwise the unique indexes
are checked against the *other* rows, newest-created-first (phone before
email, as for insert), and on success the matched row is rewritten by the
SET list. -/
def update_student (db : Store) (student_id : Nat) (d : UpdateData) :
    Store × Bool × String :=
  if !db.records.any (fun r => r.student_id == student_id) then
    (db, false, "No row updated (ID may not exist).")
  else if db.records.any (fun r => !(r.student_id == student_id) && r.student_phone == d.phone) then
    (db, false, "Phone already exists.")
  else if db.records.any (fun r => !(r.student_id == student_id) && r.student_email == d.email) then
    (db, false, "Email already exists.")
  else
    ({ db with records :=
        db.records.map (fun r => if r.student_id == student_id then apply_update d r else r) },
     true, "")

/-- `DatabaseManager.delete_student`: `DELETE FROM students WHERE
student_id=?` followed by an unconditional `return True, ''` — the
`rowcount` is never consulted. -/
def delete_student (db : Store) (student_id : Nat) : Store × Bool × String :=
  ({ db with records := db.records.filter (fun r => !(r.student_id == student_id)) },
   true, "")

/-- One SQL value as fetched by `cursor.fetchall()`: the id column is an
integer, the rest are text (timestamps carry the abstract clock reading). -/
inductive Value where
  | int (n : Nat)
  | text (s : String)
deriving DecidableEq, Repr

/-- The explicit SELECT column list shared by `get_all_students` and
`search_students`: id, name, email, phone, college, department, year,
address, city, state, pincode, date_added, last_modified. -/
def row_of_record (r : StudentRecord) : List Value :=
  [.int r.student_id, .text r.student_name, .text r.student_email,
   .text r.student_phone, .text r.student_college, .text r.student_department,
   .text r.student_year, .text r.student_address, .text r.student_city,
   .text r.student_state, .text r.student_pincode, .int r.date_added,
   .int r.last_modified]

/-- The comparison realised by `ORDER BY student_id DESC`. -/
def id_ge (a b : StudentRecord) : Prop := b.student_id ≤ a.student_id

instance : DecidableRel id_ge := fun a b => Nat.decLe b.student_id a.student_id

instance : IsTotal StudentRecord id_ge :=
  ⟨fun a b => (Nat.le_total b.student_id a.student_id).imp id id⟩

instance : IsTrans StudentRecord id_ge :=
  ⟨fun _ _ _ hab hbc => Nat.le_trans hbc hab⟩

/-- `DatabaseManager.get_all_students`: all rows, ordered by id
descending, with the explicit column list. -/
def get_all_students (db : Store) : List (List Value) :=
  (List.insertionSort id_ge db.records).map row_of_record

/-- SQLite `LIKE` matching (no ESCAPE clause): `%` matches any sequence,
`_` any single character, other characters match case-insensitively
(SQLite's default, ASCII-only case folding). -/
def sql_like : List Char → List Char → Bool
  | [], s => s.isEmpty
  | '%' :: ps, s => (List.range (s.length + 1)).any fun i => sql_like ps (s.drop i)
  | '_' :: ps, s =>
    match s with
    | [] => false
    | _ :: t => sql_like ps t
  | p :: ps, s =>
    match s with
    | [] => false
    | c :: t => p.toLower == c.toLower && sql_like ps t

/-- The pattern `f"%{term}%"` built by `search_students` — the raw term is
interpolated with no escaping of `%` or `_`. -/
def like_pattern (term : String) : List Char :=
  '%' :: (term.data ++ ['%'])

/-- The WHERE clause of `search_students`: any of the six searched columns
LIKE the pattern. -/
def matches_search (term : String) (r : StudentRecord) : Bool :=
  sql_like (like_pattern term) r.student_name.data ||
  sql_like (like_pattern term) r.student_email.data ||
  sql_like (like_pattern term) r.student_phone.data ||
  sql_like (like_pattern term) r.student_college.data ||
  sql_like (like_pattern term) r.student_department.data ||
  sql_like (like_pattern term) r.student_city.data

/-- `DatabaseManager.search_students`: the six-column LIKE filter with the
same ORDER BY and column list as `get_all_students`. -/
def search_students (db : Store) (term : String) : List (List Value) :=
  ((List.insertionSort id_ge db.records).filter (matches_search term)).map row_of_record

/-- Which form widget `get_form` focuses when a validator rejects. -/
inductive FormField where
  | name
  | email
  | phone
  | pincode
deriving DecidableEq, Repr

/-- The validated field dict returned by `get_form` (no timestamps: those
are added by `add_student` / `update_student`). -/
structure FormData where
  name : String
  email : String
  phone : String
  college : String
  department : String
  year : String
  address : String
  city : String
  state : String
  pincode : String
deriving DecidableEq, Repr

/-- `StudentManagementApp.get_form`: strip every widget's text (the phone
additionally through `re.sub(r'[\s\-()]', '', ·)`), then run the four
validators in source order; the first rejection shows its message, focuses
its widget and aborts. -/
def get_form (name email phone college department year address city state pincode : String) :
    Except (FormField × String) FormData :=
  let n := py_strip name
  let e := py_strip email
  let p := strip_phone_chars (py_strip phone)
  let co := py_strip college
  let de := py_strip department
  let yr := py_strip year
  let ad := py_strip address
  let ci := py_strip city
  let st := py_strip state
  let pc := py_strip pincode
  if !(validate_name n).1 then .error (.name, (validate_name n).2)
  else if !(validate_email e).1 then .error (.email, (validate_email e).2)
  else if !(validate_phone p).1 then .error (.phone, (validate_phone p).2)
  else if !(validate_pincode pc).1 then .error (.pincode, (validate_pincode pc).2)
  else .ok ⟨n, e, p, co, de, yr, ad, ci, st, pc⟩

/-- Specification-side composition order, written from the spec's words:
"Validation order when composing a full record is fixed: name, email,
phone, pincode — first failure short-circuits the rest", the error being
the rejecting validator's.  Compared against `get_form` below. -/
def spec_first_failure (name email phone pincode : String) :
    Option (FormField × String) :=
  if !(validate_name name).1 then some (.name, (validate_name name).2)
  else if !(validate_email email).1 then some (.email, (validate_email email).2)
  else if !(validate_phone phone).1 then some (.phone, (validate_phone phone).2)
  else if !(validate_pincode pincode).1 then some (.pincode, (validate_pincode pincode).2)
  else none

/-- `StudentManagementApp.add_student` after a successful `get_form`:
one clock reading `now` is stored in both `date_added` and
`last_modified`, then `insert_student` runs. -/
def add_student (db : Store) (f : FormData) (now : Nat) : Store × Bool × String :=
  insert_student db
    ⟨f.name, f.email, f.phone, f.college, f.department, f.year, f.address,
     f.city, f.state, f.pincode, now, now⟩

/-- The timestamp invariant of §3: every live record has
`date_added ≤ last_modified`. -/
def store_inv (db : Store) : Prop :=
  ∀ r ∈ db.records, r.date_added ≤ r.last_modified

instance (db : Store) : Decidable (store_inv db) :=
  List.decidableBAll _ db.records

/-! Concrete sample data used by witnesses and counterexamples. -/

def ann_rec : StudentRecord :=
  ⟨1, "Ann Lee", "ann@x.com", "9876543210", "MIT", "Computer Science",
   "1st Year", "12 Main St", "Pune", "MH", "560001", 5, 5⟩

def bob_rec : StudentRecord :=
  ⟨2, "Bob Roy", "bob@y.org", "1234567890", "IIT", "Information Technology",
   "2nd Year", "34 Oak Ave", "Delhi", "DL", "110001", 6, 7⟩

def sample_db : Store := ⟨[ann_rec, bob_rec], 3⟩

def ann_ins : InsertData :=
  ⟨"Ann Lee", "ann@x.com", "9876543210", "MIT", "Computer Science",
   "1st Year", "12 Main St", "Pune", "MH", "560001", 5, 5⟩

def bob_ins : InsertData :=
  ⟨"Bob Roy", "bob@y.org", "1234567890", "IIT", "Information Technology",
   "2nd Year", "34 Oak Ave", "Delhi", "DL", "110001", 6, 6⟩

/-- Same email as `ann_rec`, fresh phone. -/
def dup_email_ins : InsertData :=
  ⟨"Cara Diaz", "ann@x.com", "5550001111", "NIT", "Electronics",
   "3rd Year", "56 Elm Rd", "Goa", "GA", "403001", 8, 8⟩

/-- Fresh email, same phone as `bob_rec`. -/
def dup_phone_ins : InsertData :=
  ⟨"Eve Fox", "eve@z.net", "1234567890", "NIT", "Electrical",
   "4th Year", "78 Pine Ln", "Kochi", "KL", "682001", 8, 8⟩

/-- Same email as `ann_rec` AND same phone as `bob_rec`: both unique
indexes would be violated. -/
def dup_both_ins : InsertData :=
  ⟨"Gus Hale", "ann@x.com", "1234567890", "NIT", "Mechanical",
   "4th Year", "90 Lake Vw", "Surat", "GJ", "395001", 8, 8⟩

def upd_data : UpdateData :=
  ⟨"Ann B. Lee", "annb@x.com", "9998887776", "NIT", "Electronics",
   "3rd Year", "56 New St", "Goa", "GA", "403001", 9⟩

def ann_form : FormData :=
  ⟨"Ann Lee", "ann@x.com", "9876543210", "MIT", "Computer Science",
   "1st Year", "12 Main St", "Pune", "MH", "560001"⟩

/-- C5: `validate_phone` first strips spaces, hyphens and parentheses,
fails (with the fixed format message, its only error) exactly when the
remaining characters are not all digits or the remaining length is outside
[10, 15], accepts otherwise; in particular `validate_phone "98-765 (43210)"`
accepts. -/
theorem validate_phone_spec (s : String) :
    ((validate_phone s).1 = true ↔
      ((strip_phone_chars s).data.all Char.isDigit = true ∧
        10 ≤ (strip_phone_chars s).length ∧ (strip_phone_chars s).length ≤ 15)) ∧
    (validate_phone s = (true, "") ∨
      validate_phone s = (false, "Phone must be 10-15 digits.")) ∧
    validate_phone "98-765 (43210)" = (true, "") := by
  have hlen : (strip_phone_chars s).length = (strip_phone_chars s).data.length := rfl
  refine ⟨?_, ?_, by decide⟩
  · unfold validate_phone
    split
    · rename_i hc
      simp only [Bool.or_eq_true, Bool.not_eq_true'] at hc
      constructor
      · intro h; exact absurd h (by simp)
      · rintro ⟨hall, h10, h15⟩
        exfalso
        rcases hc with hc | hc
        · rw [py_isdigit, hall, Bool.and_true, Bool.not_eq_false',
            List.isEmpty_iff] at hc
          rw [hlen, hc] at h10
          simp at h10
        · rw [Bool.and_eq_false_iff] at hc
          rcases hc with hc | hc <;> simp_all
    · rename_i hc
      simp only [Bool.or_eq_true, Bool.not_eq_true', not_or, Bool.not_eq_false] at hc
      obtain ⟨hd, hb⟩ := hc
      rw [Bool.and_eq_true, decide_eq_true_iff, decide_eq_true_iff] at hb
      rw [py_isdigit, Bool.and_eq_true] at hd
      exact ⟨fun _ => ⟨hd.2, hb.1, hb.2⟩, fun _ => rfl⟩
  · unfold validate_phone
    split
    · exact Or.inr rfl
    · exact Or.inl rfl

/-- C1 (counterexample): id 5 is absent from the empty store, yet
`delete_student` reports plain success `(True, '')` — no NotFound error is
raised, the no-op is silently accepted. -/
theorem delete_absent_id_reports_success :
    (empty_store.records.any fun r => r.student_id == 5) = false ∧
    delete_student empty_store 5 = (empty_store, true, "") := by
  decide

/-- C1 (amended): `delete_student` always reports success `(True, '')`,
whether or not the id is present (the rowcount is never consulted, so an
absent id is silently ignored rather than reported); after a delete the id
no longer appears among the records, hence in no row of `list()`. -/
theorem delete_student_amended (db : Store) (sid : Nat) :
    (delete_student db sid).2 = (true, "") ∧
    (∀ r ∈ (delete_student db sid).1.records, r.student_id ≠ sid) ∧
    (∀ row ∈ get_all_students (delete_student db sid).1,
      row[0]? ≠ some (Value.int sid)) := by
  refine ⟨rfl, ?_, ?_⟩
  · intro r hr
    have := List.of_mem_filter hr
    simpa using this
  · intro row hrow
    unfold get_all_students at hrow
    rcases List.mem_map.mp hrow with ⟨r, hmem, rfl⟩
    have hr : r ∈ (delete_student db sid).1.records :=
      (List.mem_insertionSort id_ge).mp hmem
    have hid : r.student_id ≠ sid := by
      have := List.of_mem_filter hr
      simpa using this
    simp [row_of_record, hid]

/-- C2 (counterexample): two successful inserts of valid field sets are
assigned the distinct ids 1 and 2, yet both return the identical value
`(True, '')` — the assigned id is not part of what the insert operation
returns. -/
theorem insert_result_carries_no_id :
    (insert_student empty_store ann_ins).2 = (true, "") ∧
    (insert_student (insert_student empty_store ann_ins).1 bob_ins).2 = (true, "") ∧
    ((insert_student empty_store ann_ins).1.records.map fun r => r.student_id) = [1] ∧
    ((insert_student (insert_student empty_store ann_ins).1 bob_ins).1.records.map
      fun r => r.student_id) = [1, 2] ∧
    (insert_student empty_store ann_ins).2 =
      (insert_student (insert_student empty_store ann_ins).1 bob_ins).2 := by
  decide

/-- C2 (amended): a successful insert returns only the success flag `True`
with an empty message; the store assigns the new record the next
AUTOINCREMENT id (`next_id`), but that id is not part of the returned
value. -/
theorem insert_student_success_result (db : Store) (d : InsertData)
    (hem : (db.records.any fun r => r.student_email == d.email) = false)
    (hph : (db.records.any fun r => r.student_phone == d.phone) = false) :
    (insert_student db d).2 = (true, "") ∧
    ((insert_student db d).1.records.map fun r => r.student_id) =
      (db.records.map fun r => r.student_id) ++ [db.next_id] ∧
    (insert_student db d).1.next_id = db.next_id + 1 := by
  unfold insert_student
  rw [hem, hph]
  simp

/-- Witness for C2's amended theorem at a concrete input. -/
theorem insert_student_success_result_witness :
    (empty_store.records.any fun r => r.student_email == ann_ins.email) = false ∧
    (empty_store.records.any fun r => r.student_phone == ann_ins.phone) = false ∧
    ((insert_student empty_store ann_ins).2 = (true, "") ∧
      ((insert_student empty_store ann_ins).1.records.map fun r => r.student_id) =
        (empty_store.records.map fun r => r.student_id) ++ [empty_store.next_id] ∧
      (insert_student empty_store ann_ins).1.next_id = empty_store.next_id + 1) :=
  ⟨by decide, by decide,
   insert_student_success_result empty_store ann_ins (by decide) (by decide)⟩

/-- C3 (counterexample): inserting into `sample_db` a record whose email
equals a stored email AND whose phone equals a stored phone fails with
`'Phone already exists.'` — the later-created phone index fires first — so
"inserting a second record with the same email (regardless of phone) fails
with DuplicateEmail" is false at this input. -/
theorem insert_duplicate_email_not_reported_when_phone_collides :
    (sample_db.records.any fun r => r.student_email == dup_both_ins.email) = true ∧
    insert_student sample_db dup_both_ins =
      (sample_db, false, "Phone already exists.") := by
  decide

/-- C3 (amended): the specific colliding field is identified by the unique
index that fires, SQLite probing the indexes newest-created-first: a phone
collision yields the phone error (regardless of the email), and an email
collision with a fresh phone yields the email error — in both cases the
store is unchanged and the message is field-specific, not generic. -/
theorem insert_duplicate_field_identified (db : Store) (d : InsertData) :
    ((db.records.any fun r => r.student_phone == d.phone) = true →
      insert_student db d = (db, false, "Phone already exists.")) ∧
    ((db.records.any fun r => r.student_phone == d.phone) = false →
      (db.records.any fun r => r.student_email == d.email) = true →
      insert_student db d = (db, false, "Email already exists.")) := by
  constructor
  · intro hph
    unfold insert_student
    rw [hph]
    simp
  · intro hph hem
    unfold insert_student
    rw [hph, hem]
    simp

/-- Witness for C3's amended theorem at concrete inputs: a duplicate phone
(the email, also colliding, is not reported) and a duplicate email with a
fresh phone, against `sample_db`. -/
theorem insert_duplicate_field_identified_witness :
    ((sample_db.records.any fun r => r.student_phone == dup_both_ins.phone) = true ∧
      insert_student sample_db dup_both_ins =
        (sample_db, false, "Phone already exists.")) ∧
    ((sample_db.records.any fun r => r.student_phone == dup_email_ins.phone) = false ∧
      (sample_db.records.any fun r => r.student_email == dup_email_ins.email) = true ∧
      insert_student sample_db dup_email_ins =
        (sample_db, false, "Email already exists.")) :=
  ⟨⟨by decide,
    (insert_duplicate_field_identified sample_db dup_both_ins).1 (by decide)⟩,
   ⟨by decide, by decide,
    (insert_duplicate_field_identified sample_db dup_email_ins).2 (by decide) (by decide)⟩⟩

/-- C4: composing a full record runs the field checks in the fixed order
name, email, phone, pincode, and the first failing check short-circuits:
`get_form` returns exactly the error of the first invalid field (as
captured by the spec-side `spec_first_failure`), and the validated field
set when none fails. -/
theorem get_form_validation_order
    (name email phone college department year address city state pincode : String) :
    get_form name email phone college department year address city state pincode =
      match spec_first_failure (py_strip name) (py_strip email)
          (strip_phone_chars (py_strip phone)) (py_strip pincode) with
      | some err => .error err
      | none => .ok ⟨py_strip name, py_strip email, strip_phone_chars (py_strip phone),
          py_strip college, py_strip department, py_strip year, py_strip address,
          py_strip city, py_strip state, py_strip pincode⟩ := by
  by_cases h1 : (validate_name (py_strip name)).1 = true <;>
    by_cases h2 : (validate_email (py_strip email)).1 = true <;>
      by_cases h3 : (validate_phone (strip_phone_chars (py_strip phone))).1 = true <;>
        by_cases h4 : (validate_pincode (py_strip pincode)).1 = true <;>
          simp [get_form, spec_first_failure, h1, h2, h3, h4]

/-- C6: a successful `update_student` (id present, no uniqueness conflict
with a different record) reports success, leaves the id counter alone, and
rewrites the table row-by-row: the row with the given id has every mutable
field replaced by the supplied values and `last_modified` refreshed while
its `student_id` and `date_added` are unchanged; every row with another id
is untouched. -/
theorem update_student_replaces_fields (db : Store) (sid : Nat) (d : UpdateData)
    (hex : (db.records.any fun r => r.student_id == sid) = true)
    (hem : (db.records.any fun r =>
      !(r.student_id == sid) && r.student_email == d.email) = false)
    (hph : (db.records.any fun r =>
      !(r.student_id == sid) && r.student_phone == d.phone) = false) :
    (update_student db sid d).2 = (true, "") ∧
    (update_student db sid d).1.next_id = db.next_id ∧
    List.Forall₂ (fun r r' =>
        (r.student_id ≠ sid → r' = r) ∧
        (r.student_id = sid →
          r'.student_id = r.student_id ∧
          r'.date_added = r.date_added ∧
          r'.student_name = d.name ∧
          r'.student_email = d.email ∧
          r'.student_phone = d.phone ∧
          r'.student_college = d.college ∧
          r'.student_department = d.department ∧
          r'.student_year = d.year ∧
          r'.student_address = d.address ∧
          r'.student_city = d.city ∧
          r'.student_state = d.state ∧
          r'.student_pincode = d.pincode ∧
          r'.last_modified = d.last_modified))
      db.records (update_student db sid d).1.records := by
  unfold update_student
  rw [hex, hem, hph]
  refine ⟨rfl, rfl, ?_⟩
  show List.Forall₂ _ db.records
    (db.records.map fun r => if r.student_id == sid then apply_update d r else r)
  simp only [List.forall₂_map_right_iff]
  rw [List.forall₂_same]
  intro r _
  constructor
  · intro hne
    rw [if_neg (by simpa using hne)]
  · intro heq
    rw [if_pos (by simpa using heq)]
    exact ⟨rfl, rfl, rfl, rfl, rfl, rfl, rfl, rfl, rfl, rfl, rfl, rfl, rfl⟩

/-- Witness for C6 at a concrete input: updating record 1 of `sample_db`. -/
theorem update_student_replaces_fields_witness :
    (sample_db.records.any fun r => r.student_id == 1) = true ∧
    (sample_db.records.any fun r =>
      !(r.student_id == 1) && r.student_email == upd_data.email) = false ∧
    (sample_db.records.any fun r =>
      !(r.student_id == 1) && r.student_phone == upd_data.phone) = false ∧
    ((update_student sample_db 1 upd_data).2 = (true, "") ∧
      (update_student sample_db 1 upd_data).1.next_id = sample_db.next_id ∧
      List.Forall₂ (fun r r' =>
          (r.student_id ≠ 1 → r' = r) ∧
          (r.student_id = 1 →
            r'.student_id = r.student_id ∧
            r'.date_added = r.date_added ∧
            r'.student_name = upd_data.name ∧
            r'.student_email = upd_data.email ∧
            r'.student_phone = upd_data.phone ∧
            r'.student_college = upd_data.college ∧
            r'.student_department = upd_data.department ∧
            r'.student_year = upd_data.year ∧
            r'.student_address = upd_data.address ∧
            r'.student_city = upd_data.city ∧
            r'.student_state = upd_data.state ∧
            r'.student_pincode = upd_data.pincode ∧
            r'.last_modified = upd_data.last_modified))
        sample_db.records (update_student sample_db 1 upd_data).1.records) :=
  ⟨by decide, by decide, by decide,
   update_student_replaces_fields sample_db 1 upd_data (by decide) (by decide) (by decide)⟩

/-- C7: a record created by `add_student` stores the one clock reading
`now` in both `date_added` and `last_modified` (so they are equal at
creation), and each of insert, update (whose fresh `last_modified` is at
or after every stored `date_added`, the clock being monotone) and delete
preserves the invariant `date_added ≤ last_modified` of all live
records. -/
theorem timestamps_invariant_preserved (db : Store) (f : FormData) (now : Nat)
    (sid : Nat) (d : UpdateData)
    (hinv : store_inv db)
    (hclock : ∀ r ∈ db.records, r.date_added ≤ d.last_modified) :
    (∀ r ∈ (add_student db f now).1.records, r ∉ db.records →
      r.date_added = now ∧ r.last_modified = now) ∧
    store_inv (add_student db f now).1 ∧
    store_inv (update_student db sid d).1 ∧
    store_inv (delete_student db sid).1 := by
  refine ⟨?_, ?_, ?_, ?_⟩
  · intro r hr hnot
    unfold add_student insert_student at hr
    split at hr
    · exact absurd hr hnot
    · split at hr
      · exact absurd hr hnot
      · rcases List.mem_append.mp hr with h | h
        · exact absurd h hnot
        · rcases List.mem_singleton.mp h with rfl
          exact ⟨rfl, rfl⟩
  · intro r hr
    unfold add_student insert_student at hr
    split at hr
    · exact hinv r hr
    · split at hr
      · exact hinv r hr
      · rcases List.mem_append.mp hr with h | h
        · exact hinv r h
        · rcases List.mem_singleton.mp h with rfl
          exact Nat.le_refl now
  · intro r hr
    unfold update_student at hr
    split at hr
    · exact hinv r hr
    · split at hr
      · exact hinv r hr
      · split at hr
        · exact hinv r hr
        · rcases List.mem_map.mp hr with ⟨a, ha, rfl⟩
          by_cases hid : a.student_id == sid
          · rw [if_pos hid]
            exact hclock a ha
          · rw [if_neg hid]
            exact hinv a ha
  · intro r hr
    exact hinv r (List.mem_of_mem_filter hr)

/-- Witness for C7 at concrete inputs: `sample_db` satisfies the invariant
and the update's clock reading 9 is at or after every stored
`date_added`. -/
theorem timestamps_invariant_preserved_witness :
    store_inv sample_db ∧
    (∀ r ∈ sample_db.records, r.date_added ≤ upd_data.last_modified) ∧
    ((∀ r ∈ (add_student sample_db ann_form 8).1.records, r ∉ sample_db.records →
        r.date_added = 8 ∧ r.last_modified = 8) ∧
      store_inv (add_student sample_db ann_form 8).1 ∧
      store_inv (update_student sample_db 1 upd_data).1 ∧
      store_inv (delete_student sample_db 1).1) :=
  ⟨by decide, by decide,
   timestamps_invariant_preserved sample_db ann_form 8 1 upd_data (by decide) (by decide)⟩

/-- C8: every row delivered by `get_all_students` carries the 13 columns
in the fixed order id, name, email, phone, college, department, year,
address, city, state, pincode, date_added, last_modified; and when the
stored ids are distinct (always true, id being the primary key) the result
lists each stored record exactly once, ordered by id strictly
descending. -/
theorem get_all_students_ordered (db : Store)
    (h : (db.records.map fun r => r.student_id).Nodup) :
    (∀ r : StudentRecord, row_of_record r =
      [Value.int r.student_id, Value.text r.student_name, Value.text r.student_email,
       Value.text r.student_phone, Value.text r.student_college,
       Value.text r.student_department, Value.text r.student_year,
       Value.text r.student_address, Value.text r.student_city,
       Value.text r.student_state, Value.text r.student_pincode,
       Value.int r.date_added, Value.int r.last_modified]) ∧
    ∃ l : List StudentRecord,
      get_all_students db = l.map row_of_record ∧
      l.Perm db.records ∧
      l.Pairwise fun a b => b.student_id < a.student_id := by
  refine ⟨fun r => rfl, List.insertionSort id_ge db.records, rfl,
    List.perm_insertionSort id_ge db.records, ?_⟩
  have hsorted : (List.insertionSort id_ge db.records).Pairwise id_ge :=
    List.sorted_insertionSort id_ge db.records
  have hperm : ((List.insertionSort id_ge db.records).map fun r => r.student_id).Perm
      (db.records.map fun r => r.student_id) :=
    (List.perm_insertionSort id_ge db.records).map _
  have hnd : ((List.insertionSort id_ge db.records).map fun r => r.student_id).Nodup :=
    hperm.nodup_iff.mpr h
  have hne : (List.insertionSort id_ge db.records).Pairwise
      (fun a b => a.student_id ≠ b.student_id) :=
    List.pairwise_map.mp hnd
  exact (hsorted.and hne).imp fun hab =>
    Nat.lt_of_le_of_ne hab.1 (Ne.symm hab.2)

/-- Witness for C8 at a concrete input: `sample_db` has distinct ids. -/
theorem get_all_students_ordered_witness :
    (sample_db.records.map fun r => r.student_id).Nodup ∧
    ((∀ r : StudentRecord, row_of_record r =
      [Value.int r.student_id, Value.text r.student_name, Value.text r.student_email,
       Value.text r.student_phone, Value.text r.student_college,
       Value.text r.student_department, Value.text r.student_year,
       Value.text r.student_address, Value.text r.student_city,
       Value.text r.student_state, Value.text r.student_pincode,
       Value.int r.date_added, Value.int r.last_modified]) ∧
    ∃ l : List StudentRecord,
      get_all_students sample_db = l.map row_of_record ∧
      l.Perm sample_db.records ∧
      l.Pairwise fun a b => b.student_id < a.student_id) :=
  ⟨by decide, get_all_students_ordered sample_db (by decide)⟩

/-- A single `%` wildcard matches every string. -/
theorem sql_like_pct (s : List Char) : sql_like ['%'] s = true := by
  rw [show sql_like ['%'] s =
      ((List.range (s.length + 1)).any fun i => sql_like [] (s.drop i)) from rfl]
  rw [List.any_eq_true]
  refine ⟨s.length, List.mem_range.mpr (Nat.lt_succ_self _), ?_⟩
  rw [show sql_like [] (s.drop s.length) = (s.drop s.length).isEmpty from rfl]
  simp

/-- The empty search term's pattern `%%` matches every string. -/
theorem sql_like_pct_pct (s : List Char) : sql_like ['%', '%'] s = true := by
  rw [show sql_like ['%', '%'] s =
      ((List.range (s.length + 1)).any fun i => sql_like ['%'] (s.drop i)) from rfl]
  rw [List.any_eq_true]
  exact ⟨0, List.mem_range.mpr (Nat.succ_pos _), sql_like_pct _⟩

/-- C9: searching with the empty term returns exactly the same rows, in
the same order, as `get_all_students` — the `%%` pattern matches every
record on its first LIKE disjunct. -/
theorem search_empty_term_eq_list_all (db : Store) :
    search_students db "" = get_all_students db := by
  unfold search_students get_all_students
  congr 1
  apply List.filter_eq_self.mpr
  intro r _
  have hp : like_pattern "" = ['%', '%'] := rfl
  simp [matches_search, hp, sql_like_pct_pct]

/-- C10: the search term is interpolated into the LIKE pattern with no
escaping of the metacharacters `%` and `_`: searching `sample_db` for the
term `"%"` returns both records even though none of the six searched
fields of either record contains the character `%` (so the term occurs in
no field as a literal substring). -/
theorem search_term_metacharacters_unescaped :
    search_students sample_db "%" =
      [row_of_record bob_rec, row_of_record ann_rec] ∧
    ann_rec.student_name.data.contains '%' = false ∧
    ann_rec.student_email.data.contains '%' = false ∧
    ann_rec.student_phone.data.contains '%' = false ∧
    ann_rec.student_college.data.contains '%' = false ∧
    ann_rec.student_department.data.contains '%' = false ∧
    ann_rec.student_city.data.contains '%' = false ∧
    bob_rec.student_name.data.contains '%' = false ∧
    bob_rec.student_email.data.contains '%' = false ∧
    bob_rec.student_phone.data.contains '%' = false ∧
    bob_rec.student_college.data.contains '%' = false ∧
    bob_rec.student_department.data.contains '%' = false ∧
    bob_rec.student_city.data.contains '%' = false := by
  decide

end StudentApp
